import Mathlib

/-!
Verification development for the `openclaw-smartlead` webhook plugin
(`src/index.ts`).  The webhook pipeline (body parsing, secret validation,
context extraction, event-type filtering, dedup cache, forwarding) is
embedded shallowly: JSON payloads become an inductive `JsValue` tree,
JavaScript numbers are modelled as exact rationals extended with the
non-finite markers `nan` / `posInf` / `negInf` (double rounding and
overflow are not modelled; none of the verified properties depend on
them), and the route handler becomes a pure function from a request, a
dedup-cache snapshot, the current time and the outcome of the downstream
forward call to a handler outcome (response, trace of observable events,
new cache).  String trimming and upper-casing use Lean's ASCII-oriented
primitives, which agree with the JavaScript ones on all inputs considered
here.
-/

namespace Smartlead

/-- Whitespace trimming (`String.prototype.trim`), implemented over the
character list so that proofs can evaluate it; it removes the ASCII
whitespace characters, which is all the inputs considered here use. -/
def sTrim (s : String) : String :=
  String.mk
    (((s.data.dropWhile Char.isWhitespace).reverse.dropWhile Char.isWhitespace).reverse)

/-- Upper-casing (`String.prototype.toUpperCase`) over the character
list, ASCII letters only. -/
def sUpper (s : String) : String :=
  String.mk (s.data.map Char.toUpper)

/-- Lower-casing (`String.prototype.toLowerCase` / Node's header-name
lowercasing) over the character list, ASCII letters only. -/
def sLower (s : String) : String :=
  String.mk (s.data.map Char.toLower)

/-- The `Array.prototype.join` of a list of strings with a separator. -/
def sJoin (sep : String) (parts : List String) : String :=
  String.mk (List.intercalate sep.data (parts.map String.data))

/-- Model of a JavaScript number: either a finite value (kept as an exact
rational) or one of the non-finite values `NaN`, `Infinity`, `-Infinity`. -/
inductive JsNum where
  | finite (q : ℚ)
  | nan
  | posInf
  | negInf
deriving DecidableEq, Repr

/-- Model of a JavaScript/JSON value as seen by the plugin.  `undef` is the
result of reading an absent object property. -/
inductive JsValue where
  | undef
  | null
  | bool (b : Bool)
  | num (n : JsNum)
  | str (s : String)
  | arr (elems : List JsValue)
  | obj (fields : List (String × JsValue))
deriving Repr

/-- A JavaScript object is modelled as an association list of fields (keys
assumed distinct, as produced by `JSON.parse`). -/
abbrev JsObject := List (String × JsValue)

/-- Property read `o[k]` on an object: the bound value, or `undef` when the
key is absent. -/
def jsGet (o : JsObject) (k : String) : JsValue :=
  match List.lookup k o with
  | some v => v
  | none => JsValue.undef

/-- Source `trimString`: returns the trimmed string when the value is a
string, and the empty string for every other value. -/
def trimString : JsValue → String
  | .str s => sTrim s
  | _ => ""

/-- Source `asRecord`: returns the object itself for a non-null,
non-array object value, and the empty object otherwise. -/
def asRecord : JsValue → JsObject
  | .obj fields => fields
  | _ => []

/-- JavaScript truthiness of a value (`Boolean(v)`). -/
def jsTruthy : JsValue → Bool
  | .undef => false
  | .null => false
  | .bool b => b
  | .num (.finite q) => decide (q ≠ 0)
  | .num .nan => false
  | .num .posInf => true
  | .num .negInf => true
  | .str s => !s.isEmpty
  | .arr _ => true
  | .obj _ => true

/-- Numeric value of a list of decimal digit characters. -/
def digitsToNat (ds : List Char) : ℕ :=
  ds.foldl (fun a c => a * 10 + (c.toNat - 48)) 0

/-- Helper for the exponent suffix of a decimal numeric string: given the
characters after the mantissa and the mantissa's value, apply a
well-formed `e`/`E` exponent, require the remainder to be empty, and
return `none` on any malformed tail. -/
def applyExponent (cs : List Char) (base : ℚ) : Option ℚ :=
  match cs with
  | [] => some base
  | e :: rest =>
    if e = 'e' ∨ e = 'E' then
      let (negExp, rest2) :=
        match rest with
        | '+' :: r => (false, r)
        | '-' :: r => (true, r)
        | r => (false, r)
      let ds := rest2.takeWhile Char.isDigit
      let tail := rest2.dropWhile Char.isDigit
      if ds = [] ∨ tail ≠ [] then none
      else
        let ex : ℤ := if negExp then -(digitsToNat ds : ℤ) else (digitsToNat ds : ℤ)
        some (base * (10 : ℚ) ^ ex)
    else none

/-- Parser for an unsigned decimal numeric string (digits, optional
fraction, optional exponent), per the ECMAScript `StrUnsignedDecimalLiteral`
grammar, producing an exact rational. -/
def parseDecimal (cs : List Char) : Option ℚ :=
  let intPart := cs.takeWhile Char.isDigit
  let rest := cs.dropWhile Char.isDigit
  match rest with
  | [] => if intPart = [] then none else some (digitsToNat intPart : ℚ)
  | '.' :: rest2 =>
    let fracPart := rest2.takeWhile Char.isDigit
    let rest3 := rest2.dropWhile Char.isDigit
    if intPart = [] ∧ fracPart = [] then none
    else
      applyExponent rest3
        ((digitsToNat intPart : ℚ) + (digitsToNat fracPart : ℚ) / (10 : ℚ) ^ fracPart.length)
  | _ =>
    if intPart = [] then none else applyExponent rest (digitsToNat intPart : ℚ)

/-- Value of a digit character in a given radix, if valid. -/
def radixDigit (radix : ℕ) (c : Char) : Option ℕ :=
  let v :=
    if '0' ≤ c ∧ c ≤ '9' then some (c.toNat - 48)
    else if 'a' ≤ c ∧ c ≤ 'f' then some (c.toNat - 87)
    else if 'A' ≤ c ∧ c ≤ 'F' then some (c.toNat - 55)
    else none
  match v with
  | some n => if n < radix then some n else none
  | none => none

/-- Parser for the digits of a `0x` / `0o` / `0b` integer literal. -/
def parseRadixDigits (radix : ℕ) (cs : List Char) : Option ℕ :=
  match cs with
  | [] => none
  | _ =>
    cs.foldl
      (fun acc c =>
        match acc, radixDigit radix c with
        | some a, some d => some (a * radix + d)
        | _, _ => none)
      (some 0)

/-- Model of the JavaScript `Number(string)` conversion (the ECMAScript
`StringToNumber` operation): surrounding whitespace is ignored, the empty
string is `0`, `Infinity` forms and `0x`/`0o`/`0b` integer literals are
recognized, signed decimal literals are parsed exactly, and everything
else is `NaN`.  Finite results are exact rationals (no double rounding or
overflow to infinity). -/
def jsStringToNum (s : String) : JsNum :=
  let t := sTrim s
  if t.isEmpty then .finite 0
  else
    match t.data with
    | '0' :: 'x' :: ds | '0' :: 'X' :: ds =>
      match parseRadixDigits 16 ds with
      | some n => .finite (n : ℚ)
      | none => .nan
    | '0' :: 'o' :: ds | '0' :: 'O' :: ds =>
      match parseRadixDigits 8 ds with
      | some n => .finite (n : ℚ)
      | none => .nan
    | '0' :: 'b' :: ds | '0' :: 'B' :: ds =>
      match parseRadixDigits 2 ds with
      | some n => .finite (n : ℚ)
      | none => .nan
    | cs =>
      let (neg, cs2) :=
        match cs with
        | '+' :: r => (false, r)
        | '-' :: r => (true, r)
        | r => (false, r)
      if cs2 = "Infinity".data then (if neg then .negInf else .posInf)
      else
        match parseDecimal cs2 with
        | some q => .finite (if neg then -q else q)
        | none => .nan

/-- Source `coerceNumber`: a finite number is returned as-is; a string
with non-empty trim is converted via `Number(value)` and accepted only
when the result is finite; everything else (including `NaN` and the
infinities) yields `undefined`, modelled as `none`. -/
def coerceNumber : JsValue → Option ℚ
  | .num (.finite q) => some q
  | .str s =>
    if (sTrim s).isEmpty then none
    else
      match jsStringToNum s with
      | .finite q => some q
      | _ => none
  | _ => none

/-- Source `firstNonEmptyString`: the first argument whose trimmed string
form is non-empty, trimmed; the empty string when there is none. -/
def firstNonEmptyString : List JsValue → String
  | [] => ""
  | v :: rest =>
    let t := trimString v
    if t.isEmpty then firstNonEmptyString rest else t

/-- Source `ReplyWebhookContext`.  The extractor below never produces
`undefined` for the string-typed fields: an absent string field is
represented by the empty string (the value `firstNonEmptyString` returns
when every candidate is empty), so those fields are plain `String` here,
while the numeric fields and `leadCorrespondence` are genuinely optional. -/
structure ReplyWebhookContext where
  eventType : String
  campaignId : Option ℚ
  leadId : Option ℚ
  leadMapId : Option ℚ
  leadEmail : String
  responderEmail : String
  subject : String
  previewText : String
  eventTimestamp : String
  statsId : String
  messageId : String
  appUrl : String
  description : String
  secretKey : String
  leadCorrespondence : Option JsObject
  payload : JsObject
deriving Repr

/-- Source `extractReplyWebhookContext`: best-effort field extraction from
an arbitrary payload object, with first-non-empty precedence across the
candidate source keys of each field. -/
def extractReplyWebhookContext (payload : JsObject) : ReplyWebhookContext :=
  let leadCorrespondence := asRecord (jsGet payload "leadCorrespondence")
  { eventType :=
      sUpper (firstNonEmptyString
        [jsGet payload "event_type", jsGet payload "eventType", jsGet payload "type"])
    campaignId := coerceNumber (jsGet payload "campaign_id")
    leadId :=
      (coerceNumber (jsGet payload "sl_email_lead_id")).orElse
        (fun _ => coerceNumber (jsGet payload "lead_id"))
    leadMapId :=
      (coerceNumber (jsGet payload "sl_email_lead_map_id")).orElse
        (fun _ => coerceNumber (jsGet payload "lead_map_id"))
    leadEmail :=
      firstNonEmptyString
        [jsGet leadCorrespondence "targetLeadEmail", jsGet payload "sl_lead_email",
          jsGet payload "email", jsGet payload "lead_email"]
    responderEmail :=
      firstNonEmptyString
        [jsGet leadCorrespondence "replyReceivedFrom", jsGet payload "from_email",
          jsGet payload "reply_from", jsGet payload "to_email"]
    subject := firstNonEmptyString [jsGet payload "subject"]
    previewText :=
      firstNonEmptyString
        [jsGet payload "preview_text", jsGet payload "preview", jsGet payload "snippet"]
    eventTimestamp :=
      firstNonEmptyString
        [jsGet payload "event_timestamp", jsGet payload "time_replied", jsGet payload "timestamp"]
    statsId := firstNonEmptyString [jsGet payload "stats_id"]
    messageId := firstNonEmptyString [jsGet payload "message_id"]
    appUrl :=
      firstNonEmptyString [jsGet payload "app_url", jsGet payload "ui_master_inbox_link"]
    description := firstNonEmptyString [jsGet payload "description"]
    secretKey := firstNonEmptyString [jsGet payload "secret_key"]
    leadCorrespondence :=
      if leadCorrespondence.isEmpty then none else some leadCorrespondence
    payload := payload }

/-- Rendering of a JavaScript number into a string, as used by the
template `${...}` interpolation in the dedup-key tuple.  Integers render
exactly as in JavaScript; non-integral rationals fall back to Lean's
`num/den` form (the identifiers interpolated by the source are integer
ids, so this corner is never exercised by the properties below). -/
def jsNumToString (q : ℚ) : String :=
  if q.den = 1 then
    (if q.num < 0 then "-" ++ toString q.num.natAbs else toString q.num.natAbs)
  else toString q

/-- Rendering of `x ?? ""` followed by string interpolation, for an
optional numeric field. -/
def optNumToString (o : Option ℚ) : String :=
  match o with
  | some q => jsNumToString q
  | none => ""

/-- Pipe-joined fallback tuple of the dedup key (source
`makeWebhookEventKey`, the `[...].join("|")` branch). -/
def pipeJoinBase (ctx : ReplyWebhookContext) : String :=
  sJoin "|"
    [ctx.eventType, optNumToString ctx.campaignId, optNumToString ctx.leadId,
      ctx.leadEmail, ctx.eventTimestamp]

/-- Pre-hash base string of the dedup key: `ctx.statsId || ctx.messageId
|| [...].join("|")` from source `makeWebhookEventKey`. -/
def dedupeBase (ctx : ReplyWebhookContext) : String :=
  if !ctx.statsId.isEmpty then ctx.statsId
  else if !ctx.messageId.isEmpty then ctx.messageId
  else pipeJoinBase ctx

/-- Source `makeWebhookEventKey`: SHA-256 hex digest of the base string.
The hash itself (`createHash("sha256")...digest("hex")`) is a runtime
primitive and is abstracted as an explicit function argument; every
property below holds for an arbitrary hash function. -/
def makeWebhookEventKey (hash : String → String) (ctx : ReplyWebhookContext) : String :=
  hash (dedupeBase ctx)

/-- Model of an inbound HTTP request as the handler observes it: the
method, the headers (names lowercased, as Node exposes them), the URL
query parameters in order, the raw body text, and the result of
`JSON.parse` on that text (`none` when parsing throws).  Body size
limiting happens during streaming and is not modelled. -/
structure HttpRequest where
  method : String
  headers : List (String × String)
  query : List (String × String)
  bodyRaw : String
  bodyParsed : Option JsValue

/-- Source `getHeader`: the header value under the lowercased name, or
the empty string (multi-value headers are modelled as single-valued,
matching the `value[0]` projection). -/
def getHeader (req : HttpRequest) (name : String) : String :=
  match List.lookup (sLower name) req.headers with
  | some v => v
  | none => ""

/-- Lookup of `url.searchParams.get(name)`: the first value bound to the
parameter, or null (`none`). -/
def queryGet (req : HttpRequest) (name : String) : Option String :=
  List.lookup name req.query

/-- The `trimString(...)` wrapper applied to a possibly-null query or
header string in `extractRequestToken`. -/
def trimOrEmpty (o : Option String) : String :=
  match o with
  | some s => sTrim s
  | none => ""

/-- Test of the source regex `/^Bearer\s+/i`: a case-insensitive `Bearer`
prefix followed by at least one whitespace character. -/
def isBearerAuth (auth : String) : Bool :=
  ((auth.data.take 6).map Char.toLower = "bearer".data) &&
    (match auth.data.drop 6 with
     | c :: _ => c.isWhitespace
     | [] => false)

/-- Result of `auth.replace(/^Bearer\s+/i, "").trim()` when the regex
matched: drop the six `Bearer` characters and trim the remainder (the
trim removes both the whitespace the regex would have consumed and any
trailing whitespace). -/
def stripBearer (auth : String) : String :=
  sTrim (String.mk (auth.data.drop 6))

/-- Source `extractRequestToken`: a bearer-style `authorization` header
wins outright; otherwise the first non-empty of the `token` query
parameter, the `secret` query parameter, the `x-smartlead-secret` header
and the `x-webhook-secret` header, in that order. -/
def extractRequestToken (req : HttpRequest) : String :=
  let auth := getHeader req "authorization"
  if isBearerAuth auth then stripBearer auth
  else
    let t1 := trimOrEmpty (queryGet req "token")
    if !t1.isEmpty then t1
    else
      let t2 := trimOrEmpty (queryGet req "secret")
      if !t2.isEmpty then t2
      else
        let t3 := sTrim (getHeader req "x-smartlead-secret")
        if !t3.isEmpty then t3
        else sTrim (getHeader req "x-webhook-secret")

/-- Source `DEFAULT_REPLY_EVENT_TYPES`. -/
def DEFAULT_REPLY_EVENT_TYPES : List String := ["EMAIL_REPLY"]

/-- Order-preserving deduplication, modelling
`Array.from(new Set(values))` (a `Set` iterates in insertion order). -/
def dedupKeepFirst (l : List String) : List String :=
  l.foldl (fun acc x => if acc.contains x then acc else acc ++ [x]) []

/-- Source `normalizeReplyEventTypes`: an array input (else the default
list) is trimmed, upper-cased and filtered of empties; the result is
deduplicated, falling back to the default list when nothing survives. -/
def normalizeReplyEventTypes (input : JsValue) : List String :=
  let arr : Option (List JsValue) :=
    match input with
    | .arr l => some l
    | _ => none
  let values :=
    ((arr.getD (DEFAULT_REPLY_EVENT_TYPES.map JsValue.str)).map
        (fun v => sUpper (trimString v))).filter (fun s => !s.isEmpty)
  if values.isEmpty then DEFAULT_REPLY_EVENT_TYPES else dedupKeepFirst values

/-- The route-level configuration the handler closure captures, already
resolved from plugin config, environment and defaults: the trimmed
webhook secret (empty string when none is configured), the normalized
accepted event-type list, and the clamped dedup TTL in seconds. -/
structure HandlerConfig where
  webhookSecret : String
  replyEventTypes : List String
  dedupeTtlSeconds : ℤ

/-- The in-memory dedup cache `seenWebhookEvents`: event key to arrival
time in milliseconds, in insertion order (a JavaScript `Map`). -/
abbrev Cache := List (String × ℤ)

/-- Membership test `seenWebhookEvents.has(key)`. -/
def cacheHas (c : Cache) (k : String) : Bool :=
  (List.lookup k c).isSome

/-- Insertion `seenWebhookEvents.set(key, now)`: refreshes in place when
the key exists, appends otherwise. -/
def cacheSet (c : Cache) (k : String) (t : ℤ) : Cache :=
  if cacheHas c k then
    c.map (fun p => if p.1 = k then (k, t) else p)
  else c ++ [(k, t)]

/-- Source `pruneSeenWebhookEvents`: delete every entry whose arrival
time is strictly before `now - ttlSeconds * 1000`. -/
def pruneSeenWebhookEvents (c : Cache) (ttlSeconds : ℤ) (now : ℤ) : Cache :=
  let cutoff := now - ttlSeconds * 1000
  c.filter (fun p => decide (cutoff ≤ p.2))

/-- Source `readJsonBody`, with the body already streamed: a body whose
trim is empty is the empty object; otherwise the `JSON.parse` result
(`bodyParsed`, `none` on a parse throw) is coerced through `asRecord`.
The oversized-body abort happens while streaming and reaches the same
400 path; it is outside this model. -/
def readJsonBody (bodyRaw : String) (bodyParsed : Option JsValue) :
    Except Unit JsObject :=
  if (sTrim bodyRaw).isEmpty then .ok []
  else
    match bodyParsed with
    | none => .error ()
    | some v => .ok (asRecord v)

/-- The JSON responses the route handler can send, keeping the fields the
verified properties talk about. -/
inductive WebhookResponse where
  | health
  | methodNotAllowed
  | invalidJson
  | invalidSecret
  | ignored (eventType : Option String)
  | duplicate (eventKey : String)
  | acknowledged (eventType : String) (campaignId leadId : Option ℚ) (leadEmail : String)
  | forwardFailed
deriving DecidableEq, Repr

/-- HTTP status code of each response, as set by the corresponding
`sendJson` call in the source. -/
def WebhookResponse.status : WebhookResponse → ℕ
  | .health => 200
  | .methodNotAllowed => 405
  | .invalidJson => 400
  | .invalidSecret => 401
  | .ignored _ => 202
  | .duplicate _ => 200
  | .acknowledged _ _ _ _ => 202
  | .forwardFailed => 500

/-- Externally observable actions of one handler invocation, in program
order: the downstream forward attempt and the HTTP response send. -/
inductive HandlerEvent where
  | forwardAttempted
  | responded (r : WebhookResponse)
deriving DecidableEq, Repr

/-- Result of one handler invocation: the ordered event trace, the
response sent, the dedup cache afterwards, and whether a forward call was
attempted. -/
structure HandlerOutcome where
  trace : List HandlerEvent
  response : WebhookResponse
  cache : Cache
  forwarded : Bool
deriving Repr

/-- The `isReplyEvent` expression of the route handler: the event type is
non-empty and in the accepted list, or the event type is absent and the
payload looks reply-like (`previewText || leadCorrespondence ||
payload.time_replied` under JavaScript truthiness). -/
def isReplyEvent (types : List String) (ctx : ReplyWebhookContext) (payload : JsObject) :
    Bool :=
  (!ctx.eventType.isEmpty && types.contains ctx.eventType) ||
    (ctx.eventType.isEmpty &&
      (!ctx.previewText.isEmpty || ctx.leadCorrespondence.isSome ||
        jsTruthy (jsGet payload "time_replied")))

/-- Dedup-and-forward tail of the route handler, reached once the request
passed secret validation and event-type filtering: prune the cache, look
the key up (duplicate → 200), otherwise record the key, then attempt the
forward call and answer 202 on success and 500 on failure.  `forwardOk`
stands for the outcome of the awaited `forwardToOpenClawAgentHook` call
(success or throw). -/
def handleAccepted (cfg : HandlerConfig) (hash : String → String)
    (ctx : ReplyWebhookContext) (cache : Cache) (now : ℤ)
    (forwardOk : Bool) : HandlerOutcome :=
  let cache1 := pruneSeenWebhookEvents cache cfg.dedupeTtlSeconds now
  let key := makeWebhookEventKey hash ctx
  if cacheHas cache1 key then
    let r := WebhookResponse.duplicate key
    ⟨[.responded r], r, cache1, false⟩
  else
    let cache2 := cacheSet cache1 key now
    if forwardOk then
      let r := WebhookResponse.acknowledged
        (if ctx.eventType.isEmpty then "EMAIL_REPLY" else ctx.eventType)
        ctx.campaignId ctx.leadId ctx.leadEmail
      ⟨[.forwardAttempted, .responded r], r, cache2, true⟩
    else
      ⟨[.forwardAttempted, .responded .forwardFailed], .forwardFailed, cache2, true⟩

/-- The `providedSecret` value of the route handler:
`firstNonEmptyString(providedToken, ctx.secretKey)`, i.e. the request
token when present and the payload's self-reported `secret_key` only as
the last fallback. -/
def providedSecretOf (req : HttpRequest) (payload : JsObject) : String :=
  firstNonEmptyString
    [.str (extractRequestToken req), .str (extractReplyWebhookContext payload).secretKey]

/-- The secret-rejection guard of the route handler:
`expectedSecret && providedSecret !== expectedSecret` (an empty configured
secret disables validation entirely). -/
def secretCheckFails (cfg : HandlerConfig) (req : HttpRequest) (payload : JsObject) :
    Bool :=
  !cfg.webhookSecret.isEmpty && providedSecretOf req payload != cfg.webhookSecret

/-- The POST branch of the route handler after a successful body read:
extract the context, validate the secret (401 on mismatch), filter the
event type (202 ignored), then hand off to the dedup-and-forward tail. -/
def handlePost (cfg : HandlerConfig) (hash : String → String) (req : HttpRequest)
    (payload : JsObject) (cache : Cache) (now : ℤ) (forwardOk : Bool) :
    HandlerOutcome :=
  let ctx := extractReplyWebhookContext payload
  if secretCheckFails cfg req payload then
    ⟨[.responded .invalidSecret], .invalidSecret, cache, false⟩
  else if isReplyEvent cfg.replyEventTypes ctx payload then
    handleAccepted cfg hash ctx cache now forwardOk
  else
    let r := WebhookResponse.ignored
      (if ctx.eventType.isEmpty then none else some ctx.eventType)
    ⟨[.responded r], r, cache, false⟩

/-- Source route handler: GET answers the health descriptor, any other
non-POST method answers 405, a failed body read answers 400, and a parsed
body continues with `handlePost`. -/
def handleRequest (cfg : HandlerConfig) (hash : String → String) (req : HttpRequest)
    (cache : Cache) (now : ℤ) (forwardOk : Bool) : HandlerOutcome :=
  if sUpper req.method = "GET" then
    ⟨[.responded .health], .health, cache, false⟩
  else if sUpper req.method ≠ "POST" then
    ⟨[.responded .methodNotAllowed], .methodNotAllowed, cache, false⟩
  else
    match readJsonBody req.bodyRaw req.bodyParsed with
    | .error _ => ⟨[.responded .invalidJson], .invalidJson, cache, false⟩
    | .ok payload => handlePost cfg hash req payload cache now forwardOk

/-!
Concrete fixtures used by the witnesses and counterexamples below.  Each
POST fixture carries the JSON text of its payload as the raw body, so the
`bodyParsed` component is exactly what `JSON.parse` yields on `bodyRaw`.
-/

/-- Route configuration with no webhook secret and the default accepted
event types and dedup TTL. -/
def openCfg : HandlerConfig := ⟨"", ["EMAIL_REPLY"], 900⟩

/-- Route configuration with a configured webhook secret. -/
def secretCfg : HandlerConfig := ⟨"hunter2-secret", ["EMAIL_REPLY"], 900⟩

/-- Identity stand-in for the abstracted SHA-256 hex digest in concrete
runs (every theorem that uses it is stated for an arbitrary hash or
applies one stated for an arbitrary hash). -/
def idHash : String → String := fun s => s

/-- A POST request with the given raw body and parsed payload and no
headers or query parameters. -/
def postReq (raw : String) (p : JsObject) : HttpRequest :=
  ⟨"POST", [], [], raw, some (.obj p)⟩

/-- An accepted reply payload: `event_type` EMAIL_REPLY with a stats id. -/
def replyPayload : JsObject :=
  [("event_type", .str "EMAIL_REPLY"), ("stats_id", .str "s-1")]

/-- JSON text of `replyPayload`. -/
def replyRaw : String :=
  "\x7b\"event_type\":\"EMAIL_REPLY\",\"stats_id\":\"s-1\"\x7d"

/-- A payload with only a stats id: no event type, no preview text, no
correspondence object, no `time_replied`. -/
def statsOnlyPayload : JsObject := [("stats_id", .str "abc-123")]

/-- JSON text of `statsOnlyPayload`. -/
def statsOnlyRaw : String := "\x7b\"stats_id\":\"abc-123\"\x7d"

/-- A reply payload whose only identifier is a message id. -/
def msgIdPayload : JsObject :=
  [("event_type", .str "EMAIL_REPLY"), ("message_id", .str "m-1")]

/-- JSON text of `msgIdPayload`. -/
def msgIdRaw : String :=
  "\x7b\"event_type\":\"EMAIL_REPLY\",\"message_id\":\"m-1\"\x7d"

/-- A reply payload with no stats id, message id, campaign id, lead id,
email or timestamp at all. -/
def bareReplyPayload : JsObject := [("event_type", .str "EMAIL_REPLY")]

/-- JSON text of `bareReplyPayload`. -/
def bareReplyRaw : String := "\x7b\"event_type\":\"EMAIL_REPLY\"\x7d"

/-- An unsupported event type carrying the same stats id as
`replyPayload`. -/
def statusPayload : JsObject :=
  [("event_type", .str "CAMPAIGN_STATUS"), ("stats_id", .str "s-1")]

/-- JSON text of `statusPayload`. -/
def statusRaw : String :=
  "\x7b\"event_type\":\"CAMPAIGN_STATUS\",\"stats_id\":\"s-1\"\x7d"

/-- A payload with no event type and none of the reply-like markers the
handler's fallback actually tests. -/
def subjectOnlyPayload : JsObject := [("subject", .str "hi")]

/-- JSON text of `subjectOnlyPayload`. -/
def subjectOnlyRaw : String := "\x7b\"subject\":\"hi\"\x7d"

/-- The round-trip payload of the specification: a correspondence target
email and a conflicting top-level `sl_lead_email`. -/
def roundTripPayload : JsObject :=
  [("leadCorrespondence", .obj [("targetLeadEmail", .str "a@x.com")]),
    ("sl_lead_email", .str "b@x.com")]

/-- A second accepted reply payload with the stats id of `replyPayload`
but different values in every other field. -/
def replyPayloadVariant : JsObject :=
  [("event_type", .str "EMAIL_REPLY"), ("stats_id", .str "s-1"),
    ("campaign_id", .num (.finite 7)), ("sl_lead_email", .str "other@x.com")]

/-- JSON text of `replyPayloadVariant`. -/
def replyVariantRaw : String :=
  "\x7b\"event_type\":\"EMAIL_REPLY\",\"stats_id\":\"s-1\",\"campaign_id\":7,\"sl_lead_email\":\"other@x.com\"\x7d"

/-- A POST request that supplies conflicting tokens through the dedicated
secret header and the `token` query parameter. -/
def headerAndQueryReq : HttpRequest :=
  ⟨"POST", [("x-smartlead-secret", "HEADERTOK")], [("token", "QUERYTOK")], "", none⟩

/-- A payload whose only field is a self-reported secret key. -/
def secretKeyPayload : JsObject := [("secret_key", .str "pk-1")]

/-- A POST request whose bearer token differs from
`secretCfg.webhookSecret` in its first byte. -/
def wrongBearerReq : HttpRequest :=
  ⟨"POST", [("authorization", "Bearer Xunter2-secret")], [], replyRaw,
    some (.obj replyPayload)⟩

/-!
General lemmas dissecting the route handler.
-/

/-- A POST request with a readable body runs the post-body pipeline. -/
theorem handleRequest_post_eq (cfg : HandlerConfig) (hash : String → String)
    (req : HttpRequest) (payload : JsObject) (cache : Cache) (now : ℤ)
    (forwardOk : Bool) (hm : sUpper req.method = "POST")
    (hb : readJsonBody req.bodyRaw req.bodyParsed = Except.ok payload) :
    handleRequest cfg hash req cache now forwardOk =
      handlePost cfg hash req payload cache now forwardOk := by
  unfold handleRequest
  simp only [hm, hb]
  simp

/-- Shape of a `handleAccepted` outcome that attempted a forward: the
forward attempt is traced before the response, and the response is 202
exactly when the forward succeeded and 500 when it failed. -/
theorem handleAccepted_forwarded_shape (cfg : HandlerConfig) (hash : String → String)
    (ctx : ReplyWebhookContext) (cache : Cache) (now : ℤ) (forwardOk : Bool)
    (h : (handleAccepted cfg hash ctx cache now forwardOk).forwarded = true) :
    (handleAccepted cfg hash ctx cache now forwardOk).trace =
      [.forwardAttempted,
        .responded (handleAccepted cfg hash ctx cache now forwardOk).response] ∧
    (handleAccepted cfg hash ctx cache now forwardOk).response.status =
      (if forwardOk then 202 else 500) := by
  unfold handleAccepted at h ⊢
  cases hseen : cacheHas (pruneSeenWebhookEvents cache cfg.dedupeTtlSeconds now)
      (makeWebhookEventKey hash ctx)
  · cases forwardOk <;> simp_all [WebhookResponse.status]
  · simp_all

/-- Shape of a `handlePost` outcome that attempted a forward. -/
theorem handlePost_forwarded_shape (cfg : HandlerConfig) (hash : String → String)
    (req : HttpRequest) (payload : JsObject) (cache : Cache) (now : ℤ)
    (forwardOk : Bool)
    (h : (handlePost cfg hash req payload cache now forwardOk).forwarded = true) :
    (handlePost cfg hash req payload cache now forwardOk).trace =
      [.forwardAttempted,
        .responded (handlePost cfg hash req payload cache now forwardOk).response] ∧
    (handlePost cfg hash req payload cache now forwardOk).response.status =
      (if forwardOk then 202 else 500) := by
  unfold handlePost at h ⊢
  cases hsec : secretCheckFails cfg req payload
  · cases hrep :
        isReplyEvent cfg.replyEventTypes (extractReplyWebhookContext payload) payload
    · simp_all
    · simp only [hsec, hrep, Bool.false_eq_true, if_false, if_true] at h ⊢
      exact handleAccepted_forwarded_shape cfg hash _ cache now forwardOk h
  · simp_all

/-- Shape of any handler outcome that attempted a forward: the forward
attempt is traced strictly before the response send, and the response
status is 202 on forward success and 500 on forward failure. -/
theorem handleRequest_forwarded_shape (cfg : HandlerConfig) (hash : String → String)
    (req : HttpRequest) (cache : Cache) (now : ℤ) (forwardOk : Bool)
    (h : (handleRequest cfg hash req cache now forwardOk).forwarded = true) :
    (handleRequest cfg hash req cache now forwardOk).trace =
      [.forwardAttempted,
        .responded (handleRequest cfg hash req cache now forwardOk).response] ∧
    (handleRequest cfg hash req cache now forwardOk).response.status =
      (if forwardOk then 202 else 500) := by
  unfold handleRequest at h ⊢
  by_cases hg : sUpper req.method = "GET"
  · rw [if_pos hg] at h
    simp at h
  · rw [if_neg hg] at h ⊢
    by_cases hp : sUpper req.method ≠ "POST"
    · rw [if_pos hp] at h
      simp at h
    · rw [if_neg hp] at h ⊢
      cases hb : readJsonBody req.bodyRaw req.bodyParsed with
      | error e =>
        rw [hb] at h
        simp at h
      | ok payload =>
        rw [hb] at h
        exact handlePost_forwarded_shape cfg hash req payload cache now forwardOk h

/-- C1: for every request that reaches the forward stage, the handler
does not acknowledge before forwarding: the forward attempt precedes the
HTTP response in the observable trace, and the response depends on the
forward outcome — 202 on success, 500 on failure. -/
theorem c1_forward_precedes_response (cfg : HandlerConfig) (hash : String → String)
    (req : HttpRequest) (cache : Cache) (now : ℤ) (forwardOk : Bool)
    (h : (handleRequest cfg hash req cache now forwardOk).forwarded = true) :
    (handleRequest cfg hash req cache now forwardOk).trace =
      [.forwardAttempted,
        .responded (handleRequest cfg hash req cache now forwardOk).response] ∧
    (handleRequest cfg hash req cache now forwardOk).response.status =
      (if forwardOk then 202 else 500) :=
  handleRequest_forwarded_shape cfg hash req cache now forwardOk h

/-- C1 witness: a concrete accepted reply whose forward succeeds, run
through `c1_forward_precedes_response`. -/
theorem c1_forward_precedes_response_witness :
    (handleRequest openCfg idHash (postReq replyRaw replyPayload) [] 0 true).forwarded
        = true ∧
    ((handleRequest openCfg idHash (postReq replyRaw replyPayload) [] 0 true).trace =
      [.forwardAttempted,
        .responded
          (handleRequest openCfg idHash (postReq replyRaw replyPayload) [] 0
              true).response] ∧
    (handleRequest openCfg idHash (postReq replyRaw replyPayload) [] 0
          true).response.status = (if true then 202 else 500)) :=
  ⟨by decide,
    c1_forward_precedes_response openCfg idHash (postReq replyRaw replyPayload) [] 0 true
      (by decide)⟩

/-- C1 counterexample: for a concrete accepted reply whose forward call
fails, the handler responds 500 — the forward attempt happens before the
response is sent, and the forward failure does change the inbound
response to a non-2xx status, contrary to the claim. -/
theorem c1_counterexample :
    (handleRequest openCfg idHash (postReq replyRaw replyPayload) [] 0 false).forwarded
        = true ∧
    (handleRequest openCfg idHash (postReq replyRaw replyPayload) [] 0 false).trace =
      [.forwardAttempted, .responded .forwardFailed] ∧
    (handleRequest openCfg idHash (postReq replyRaw replyPayload) [] 0
        false).response.status = 500 := by
  decide

/-- C2: when a secret is configured and the provided secret differs from
it — in particular when it differs in a single byte — the handler
responds 401.  (This is the functional half of the claim; the
constant-time half is a real-time property of the string comparison the
source performs with the `!==` operator, which is outside this model.) -/
theorem c2_secret_mismatch_rejected (cfg : HandlerConfig) (hash : String → String)
    (req : HttpRequest) (payload : JsObject) (cache : Cache) (now : ℤ)
    (forwardOk : Bool) (hm : sUpper req.method = "POST")
    (hb : readJsonBody req.bodyRaw req.bodyParsed = Except.ok payload)
    (h1 : cfg.webhookSecret ≠ "")
    (h2 : providedSecretOf req payload ≠ cfg.webhookSecret) :
    (handleRequest cfg hash req cache now forwardOk).response = .invalidSecret ∧
    (handleRequest cfg hash req cache now forwardOk).response.status = 401 := by
  have h1' : cfg.webhookSecret.isEmpty = false := by
    rw [Bool.eq_false_iff]
    simpa [String.isEmpty_iff] using h1
  have hs : secretCheckFails cfg req payload = true := by
    unfold secretCheckFails
    simp [h1', bne_iff_ne, h2]
  rw [handleRequest_post_eq cfg hash req payload cache now forwardOk hm hb]
  unfold handlePost
  simp [hs, WebhookResponse.status]

/-- C2 witness: the configured secret and a bearer token differing from
it in the first byte, rejected with 401 through
`c2_secret_mismatch_rejected`. -/
theorem c2_secret_mismatch_rejected_witness :
    (handleRequest secretCfg idHash wrongBearerReq [] 0 true).response
        = .invalidSecret ∧
    (handleRequest secretCfg idHash wrongBearerReq [] 0 true).response.status = 401 :=
  c2_secret_mismatch_rejected secretCfg idHash wrongBearerReq replyPayload [] 0 true
    rfl rfl (by decide) (by decide)

/-- A `handleAccepted` outcome never answers with an ignored marker. -/
theorem handleAccepted_response_not_ignored (cfg : HandlerConfig)
    (hash : String → String) (ctx : ReplyWebhookContext) (cache : Cache) (now : ℤ)
    (forwardOk : Bool) (e : Option String) :
    (handleAccepted cfg hash ctx cache now forwardOk).response ≠ .ignored e := by
  unfold handleAccepted
  cases hseen : cacheHas (pruneSeenWebhookEvents cache cfg.dedupeTtlSeconds now)
      (makeWebhookEventKey hash ctx)
  · cases forwardOk <;> simp [hseen]
  · simp [hseen]

/-- C3: a validated payload with no event type is answered with the
ignored marker exactly when it has no preview text, no correspondence
object and no truthy `time_replied` field — this triple, not the
(lead id, stats id, preview) triple, is the fallback the handler tests. -/
theorem c3_missing_event_type_heuristic (cfg : HandlerConfig) (hash : String → String)
    (req : HttpRequest) (payload : JsObject) (cache : Cache) (now : ℤ)
    (forwardOk : Bool) (hm : sUpper req.method = "POST")
    (hb : readJsonBody req.bodyRaw req.bodyParsed = Except.ok payload)
    (hsec : secretCheckFails cfg req payload = false)
    (het : (extractReplyWebhookContext payload).eventType = "") :
    (handleRequest cfg hash req cache now forwardOk).response = .ignored none ↔
      (!(extractReplyWebhookContext payload).previewText.isEmpty ||
        (extractReplyWebhookContext payload).leadCorrespondence.isSome ||
        jsTruthy (jsGet payload "time_replied")) = false := by
  have hrep : isReplyEvent cfg.replyEventTypes (extractReplyWebhookContext payload)
      payload =
      (!(extractReplyWebhookContext payload).previewText.isEmpty ||
        (extractReplyWebhookContext payload).leadCorrespondence.isSome ||
        jsTruthy (jsGet payload "time_replied")) := by
    unfold isReplyEvent
    rw [het]
    exact rfl
  have hemp : "".isEmpty = true := rfl
  rw [handleRequest_post_eq cfg hash req payload cache now forwardOk hm hb]
  simp only [handlePost, hsec, Bool.false_eq_true, if_false]
  rw [hrep]
  cases hx : (!(extractReplyWebhookContext payload).previewText.isEmpty ||
      (extractReplyWebhookContext payload).leadCorrespondence.isSome ||
      jsTruthy (jsGet payload "time_replied"))
  · simp [het, hemp]
  · simp [handleAccepted_response_not_ignored]

/-- C3 witness: a payload with only a subject — no event type, no lead
id, no stats id, no preview — is ignored, via
`c3_missing_event_type_heuristic`. -/
theorem c3_missing_event_type_heuristic_witness :
    (handleRequest openCfg idHash (postReq subjectOnlyRaw subjectOnlyPayload) [] 0
        true).response = .ignored none :=
  (c3_missing_event_type_heuristic openCfg idHash
      (postReq subjectOnlyRaw subjectOnlyPayload) subjectOnlyPayload [] 0 true
      rfl rfl (by decide) (by decide)).mpr (by decide)

/-- C3 counterexample: a payload whose only field is a stats id — which
the claim says must be classified reply-like — is classified as ignored
(202 with the ignored marker) because the handler's fallback never looks
at the stats id or the lead id. -/
theorem c3_counterexample :
    (extractReplyWebhookContext statsOnlyPayload).eventType = "" ∧
    (extractReplyWebhookContext statsOnlyPayload).statsId = "abc-123" ∧
    (handleRequest openCfg idHash (postReq statsOnlyRaw statsOnlyPayload) [] 0
        true).response = .ignored none ∧
    (handleRequest openCfg idHash (postReq statsOnlyRaw statsOnlyPayload) [] 0
        true).response.status = 202 := by
  decide

/-- A non-empty stats id is the dedup base. -/
theorem dedupeBase_statsId (ctx : ReplyWebhookContext) (h : ctx.statsId ≠ "") :
    dedupeBase ctx = ctx.statsId := by
  have h' : ctx.statsId.isEmpty = false := by
    rw [Bool.eq_false_iff]
    simpa [String.isEmpty_iff] using h
  unfold dedupeBase
  simp [h']

/-- With no stats id, a non-empty message id is the dedup base. -/
theorem dedupeBase_messageId (ctx : ReplyWebhookContext) (h1 : ctx.statsId = "")
    (h2 : ctx.messageId ≠ "") : dedupeBase ctx = ctx.messageId := by
  have h2' : ctx.messageId.isEmpty = false := by
    rw [Bool.eq_false_iff]
    simpa [String.isEmpty_iff] using h2
  have hemp : "".isEmpty = true := rfl
  unfold dedupeBase
  simp [h1, h2', hemp]

/-- With neither stats id nor message id, the pipe-joined tuple is the
dedup base. -/
theorem dedupeBase_pipeJoin (ctx : ReplyWebhookContext) (h1 : ctx.statsId = "")
    (h2 : ctx.messageId = "") : dedupeBase ctx = pipeJoinBase ctx := by
  have hemp : "".isEmpty = true := rfl
  unfold dedupeBase
  simp [h1, h2, hemp]

/-- C4: the dedup fingerprint is the hash of the stats id when one is
present; otherwise the hash of the message id when one is present; and
only when both are absent the hash of the pipe-joined tuple of (event
type, campaign id, lead id, lead email, event timestamp). -/
theorem c4_fingerprint_precedence (hash : String → String)
    (ctx : ReplyWebhookContext) :
    (ctx.statsId ≠ "" → makeWebhookEventKey hash ctx = hash ctx.statsId) ∧
    (ctx.statsId = "" → ctx.messageId ≠ "" →
      makeWebhookEventKey hash ctx = hash ctx.messageId) ∧
    (ctx.statsId = "" → ctx.messageId = "" →
      makeWebhookEventKey hash ctx = hash (pipeJoinBase ctx)) := by
  refine ⟨fun h => ?_, fun h1 h2 => ?_, fun h1 h2 => ?_⟩ <;> unfold makeWebhookEventKey
  · rw [dedupeBase_statsId ctx h]
  · rw [dedupeBase_messageId ctx h1 h2]
  · rw [dedupeBase_pipeJoin ctx h1 h2]

/-- C4 witness: the three precedence cases of
`c4_fingerprint_precedence` at concrete payloads. -/
theorem c4_fingerprint_precedence_witness :
    makeWebhookEventKey idHash (extractReplyWebhookContext replyPayload) = idHash "s-1" ∧
    makeWebhookEventKey idHash (extractReplyWebhookContext msgIdPayload) = idHash "m-1" ∧
    makeWebhookEventKey idHash (extractReplyWebhookContext bareReplyPayload) =
      idHash "EMAIL_REPLY||||" :=
  ⟨((c4_fingerprint_precedence idHash _).1 (by decide)).trans (by decide),
    ((c4_fingerprint_precedence idHash _).2.1 (by decide) (by decide)).trans (by decide),
    ((c4_fingerprint_precedence idHash _).2.2 (by decide) (by decide)).trans (by decide)⟩

/-- C4 counterexample: with no stats id but a message id present, the
fingerprint is the hash of the message id, not the hash of the
pipe-joined tuple the claim prescribes (exhibited with the identity in
place of the hash: the two hash arguments differ). -/
theorem c4_counterexample :
    (extractReplyWebhookContext msgIdPayload).statsId = "" ∧
    makeWebhookEventKey idHash (extractReplyWebhookContext msgIdPayload) = "m-1" ∧
    idHash (pipeJoinBase (extractReplyWebhookContext msgIdPayload)) = "EMAIL_REPLY||||" ∧
    ("m-1" : String) ≠ "EMAIL_REPLY||||" := by
  decide

/-- Trimming both ends of a character list is idempotent. -/
theorem trim_list_idem (l : List Char) :
    ((((l.dropWhile Char.isWhitespace).rdropWhile
          Char.isWhitespace).dropWhile Char.isWhitespace).rdropWhile Char.isWhitespace)
      = (l.dropWhile Char.isWhitespace).rdropWhile Char.isWhitespace := by
  have h1 : ((l.dropWhile Char.isWhitespace).rdropWhile
        Char.isWhitespace).dropWhile Char.isWhitespace =
      (l.dropWhile Char.isWhitespace).rdropWhile Char.isWhitespace := by
    rcases hB : (l.dropWhile Char.isWhitespace).rdropWhile Char.isWhitespace with
      _ | ⟨b, bt⟩
    · rfl
    · rw [List.dropWhile_cons]
      have hpre : b :: bt <+: l.dropWhile Char.isWhitespace := by
        rw [← hB]
        exact List.rdropWhile_prefix Char.isWhitespace _
      obtain ⟨t, ht⟩ := hpre
      have key : ∀ hne : List.dropWhile Char.isWhitespace l ≠ [],
          Char.isWhitespace ((List.dropWhile Char.isWhitespace l).head hne) = false :=
        fun hne => List.head_dropWhile_not Char.isWhitespace l hne
      rw [← ht] at key
      have hwb : Char.isWhitespace b = false := key (by simp)
      simp [hwb]
  rw [h1, List.rdropWhile_idempotent]

/-- String trimming is idempotent. -/
theorem sTrim_idem (s : String) : sTrim (sTrim s) = sTrim s :=
  congrArg String.mk (trim_list_idem s.data)

/-- The empty string trims to itself. -/
theorem sTrim_empty : sTrim "" = "" := rfl

/-- The result of `trimString` is already trimmed. -/
theorem trimString_trim_fixed (v : JsValue) : sTrim (trimString v) = trimString v := by
  cases v <;> simp [trimString, sTrim_idem, sTrim_empty]

/-- The result of `firstNonEmptyString` is already trimmed. -/
theorem firstNonEmptyString_trim_fixed (vs : List JsValue) :
    sTrim (firstNonEmptyString vs) = firstNonEmptyString vs := by
  induction vs with
  | nil => exact sTrim_empty
  | cons v rest ih =>
    unfold firstNonEmptyString
    by_cases h : (trimString v).isEmpty
    · simpa [h] using ih
    · simpa [h] using trimString_trim_fixed v

/-- The result of the `trimString(...)` wrapper over a nullable string is
already trimmed. -/
theorem trimOrEmpty_trim_fixed (o : Option String) :
    sTrim (trimOrEmpty o) = trimOrEmpty o := by
  cases o <;> simp [trimOrEmpty, sTrim_idem, sTrim_empty]

/-- The extracted request token is already trimmed. -/
theorem extractRequestToken_trim_fixed (req : HttpRequest) :
    sTrim (extractRequestToken req) = extractRequestToken req := by
  unfold extractRequestToken
  by_cases hba : isBearerAuth (getHeader req "authorization")
  · simp only [hba, if_true]
    exact sTrim_idem _
  · simp only [hba, Bool.false_eq_true, if_false]
    by_cases h1 : (trimOrEmpty (queryGet req "token")).isEmpty = false
    · simp only [h1, Bool.not_false, if_true]
      exact trimOrEmpty_trim_fixed _
    · simp only [Bool.not_eq_false] at h1
      simp only [h1, Bool.not_true, Bool.false_eq_true, if_false]
      by_cases h2 : (trimOrEmpty (queryGet req "secret")).isEmpty = false
      · simp only [h2, Bool.not_false, if_true]
        exact trimOrEmpty_trim_fixed _
      · simp only [Bool.not_eq_false] at h2
        simp only [h2, Bool.not_true, Bool.false_eq_true, if_false]
        by_cases h3 : (sTrim (getHeader req "x-smartlead-secret")).isEmpty = false
        · simp only [h3, Bool.not_false, if_true]
          exact sTrim_idem _
        · simp only [Bool.not_eq_false] at h3
          simp only [h3, Bool.not_true, Bool.false_eq_true, if_false]
          exact sTrim_idem _

/-- C5: the token compared against the configured secret is chosen in
this order: a bearer-style authorization header wins outright; otherwise
the `token` query parameter, then the `secret` query parameter, then the
`x-smartlead-secret` header, then the `x-webhook-secret` header; and the
payload's self-reported `secret_key` is consulted only when all request
sources are empty.  (Query parameters take precedence over the dedicated
secret headers — the reverse of the claimed order.) -/
theorem c5_token_precedence (req : HttpRequest) (payload : JsObject) :
    (isBearerAuth (getHeader req "authorization") = true →
      extractRequestToken req = stripBearer (getHeader req "authorization")) ∧
    (isBearerAuth (getHeader req "authorization") = false →
      (trimOrEmpty (queryGet req "token")).isEmpty = false →
      extractRequestToken req = trimOrEmpty (queryGet req "token")) ∧
    (isBearerAuth (getHeader req "authorization") = false →
      (trimOrEmpty (queryGet req "token")).isEmpty = true →
      (trimOrEmpty (queryGet req "secret")).isEmpty = false →
      extractRequestToken req = trimOrEmpty (queryGet req "secret")) ∧
    (isBearerAuth (getHeader req "authorization") = false →
      (trimOrEmpty (queryGet req "token")).isEmpty = true →
      (trimOrEmpty (queryGet req "secret")).isEmpty = true →
      (sTrim (getHeader req "x-smartlead-secret")).isEmpty = false →
      extractRequestToken req = sTrim (getHeader req "x-smartlead-secret")) ∧
    (isBearerAuth (getHeader req "authorization") = false →
      (trimOrEmpty (queryGet req "token")).isEmpty = true →
      (trimOrEmpty (queryGet req "secret")).isEmpty = true →
      (sTrim (getHeader req "x-smartlead-secret")).isEmpty = true →
      extractRequestToken req = sTrim (getHeader req "x-webhook-secret")) ∧
    (extractRequestToken req ≠ "" →
      providedSecretOf req payload = extractRequestToken req) ∧
    (extractRequestToken req = "" →
      providedSecretOf req payload = (extractReplyWebhookContext payload).secretKey) := by
  refine ⟨fun hba => ?_, fun hba h1 => ?_, fun hba h1 h2 => ?_, fun hba h1 h2 h3 => ?_,
    fun hba h1 h2 h3 => ?_, fun h => ?_, fun h => ?_⟩
  · unfold extractRequestToken
    simp [hba]
  · unfold extractRequestToken
    simp [hba, h1]
  · unfold extractRequestToken
    simp [hba, h1, h2]
  · unfold extractRequestToken
    simp [hba, h1, h2, h3]
  · unfold extractRequestToken
    simp [hba, h1, h2, h3]
  · have htok := extractRequestToken_trim_fixed req
    have hie : (extractRequestToken req).isEmpty = false := by
      rw [Bool.eq_false_iff]
      simpa [String.isEmpty_iff] using h
    simp [providedSecretOf, firstNonEmptyString, trimString, htok, hie]
  · have hkey : sTrim ((extractReplyWebhookContext payload).secretKey) =
        (extractReplyWebhookContext payload).secretKey :=
      firstNonEmptyString_trim_fixed [jsGet payload "secret_key"]
    have hemp : "".isEmpty = true := rfl
    rcases hk : ((extractReplyWebhookContext payload).secretKey).isEmpty with _ | _
    · simp [providedSecretOf, firstNonEmptyString, trimString, h, hkey, hk, sTrim_empty,
        hemp]
    · have : (extractReplyWebhookContext payload).secretKey = "" :=
        (String.isEmpty_iff _).mp hk
      simp [providedSecretOf, firstNonEmptyString, trimString, h, hkey, this, sTrim_empty,
        hemp]

/-- C5 witness: the bearer branch, the query-over-header branch and the
payload-fallback branch of `c5_token_precedence` at concrete requests. -/
theorem c5_token_precedence_witness :
    extractRequestToken wrongBearerReq = "Xunter2-secret" ∧
    extractRequestToken headerAndQueryReq = "QUERYTOK" ∧
    providedSecretOf (postReq statsOnlyRaw statsOnlyPayload) secretKeyPayload = "pk-1" :=
  ⟨((c5_token_precedence wrongBearerReq []).1 (by decide)).trans (by decide),
    ((c5_token_precedence headerAndQueryReq []).2.1 (by decide) (by decide)).trans
      (by decide),
    ((c5_token_precedence (postReq statsOnlyRaw statsOnlyPayload)
          secretKeyPayload).2.2.2.2.2.2 (by decide)).trans (by decide)⟩

/-- C5 counterexample: a request carrying both a dedicated secret header
and a `token` query parameter resolves to the query parameter, whereas
the claim gives the dedicated header the higher precedence. -/
theorem c5_counterexample :
    extractRequestToken headerAndQueryReq = "QUERYTOK" ∧
    getHeader headerAndQueryReq "x-smartlead-secret" = "HEADERTOK" ∧
    ("QUERYTOK" : String) ≠ "HEADERTOK" := by
  decide

/-- Unfolding of `firstNonEmptyString` on a cons cell. -/
theorem firstNonEmptyString_cons (v : JsValue) (rest : List JsValue) :
    firstNonEmptyString (v :: rest) =
      if (trimString v).isEmpty then firstNonEmptyString rest else trimString v := rfl

/-- C6: fields are populated by first-non-empty precedence over their
candidate source keys — `firstNonEmptyString` returns the first candidate
with a non-empty trim — and on the empty payload the numeric fields and
the correspondence object are `none` while every string-typed field is
the empty string, which is how this extractor represents an absent string
field. -/
theorem c6_field_representation :
    (∀ vs : List JsValue,
      firstNonEmptyString vs =
        (((vs.map trimString).filter (fun t => !t.isEmpty)).headD "")) ∧
    ((extractReplyWebhookContext []).campaignId = none ∧
      (extractReplyWebhookContext []).leadId = none ∧
      (extractReplyWebhookContext []).leadMapId = none ∧
      (extractReplyWebhookContext []).leadCorrespondence = none ∧
      (extractReplyWebhookContext []).eventType = "" ∧
      (extractReplyWebhookContext []).leadEmail = "" ∧
      (extractReplyWebhookContext []).responderEmail = "" ∧
      (extractReplyWebhookContext []).subject = "" ∧
      (extractReplyWebhookContext []).previewText = "" ∧
      (extractReplyWebhookContext []).eventTimestamp = "" ∧
      (extractReplyWebhookContext []).statsId = "" ∧
      (extractReplyWebhookContext []).messageId = "" ∧
      (extractReplyWebhookContext []).appUrl = "" ∧
      (extractReplyWebhookContext []).description = "" ∧
      (extractReplyWebhookContext []).secretKey = "") ∧
    (∀ (p : JsObject) (s : String),
      trimString (jsGet (asRecord (jsGet p "leadCorrespondence")) "targetLeadEmail") = s →
      s ≠ "" → (extractReplyWebhookContext p).leadEmail = s) := by
  refine ⟨fun vs => ?_,
    ⟨rfl, rfl, rfl, rfl, rfl, rfl, rfl, rfl, rfl, rfl, rfl, rfl, rfl, rfl, rfl⟩,
    fun p s h hne => ?_⟩
  · induction vs with
    | nil => rfl
    | cons v rest ih =>
      by_cases h : (trimString v).isEmpty
      · have hlhs : firstNonEmptyString (v :: rest) = firstNonEmptyString rest := by
          rw [firstNonEmptyString_cons]
          simp [h]
        have hfil : ((v :: rest).map trimString).filter (fun t => !t.isEmpty) =
            (rest.map trimString).filter (fun t => !t.isEmpty) := by
          rw [List.map_cons, List.filter_cons]
          simp [h]
        rw [hlhs, hfil, ih]
      · have hlhs : firstNonEmptyString (v :: rest) = trimString v := by
          rw [firstNonEmptyString_cons]
          simp [h]
        have hfil : ((v :: rest).map trimString).filter (fun t => !t.isEmpty) =
            trimString v :: (rest.map trimString).filter (fun t => !t.isEmpty) := by
          rw [List.map_cons, List.filter_cons]
          simp [h]
        rw [hlhs, hfil]
        rfl
  · have hie : s.isEmpty = false := by
      rw [Bool.eq_false_iff]
      simpa [String.isEmpty_iff] using hne
    simp [extractReplyWebhookContext, firstNonEmptyString, h, hie]

/-- C6 witness: the specification's round-trip example — the
correspondence target email takes precedence over the top-level lead
email — through `c6_field_representation`. -/
theorem c6_field_representation_witness :
    (extractReplyWebhookContext roundTripPayload).leadEmail = "a@x.com" :=
  c6_field_representation.2.2 roundTripPayload "a@x.com" (by decide) (by decide)

/-- C6 counterexample: on the empty payload the extractor represents the
absent lead email and subject as the empty string, not as an
undefined/none value as the claim requires of every optional field. -/
theorem c6_counterexample :
    (extractReplyWebhookContext []).leadEmail = "" ∧
    (extractReplyWebhookContext []).subject = "" := by
  decide

/-- Appending a fresh binding to an association list that lacks the key
makes the lookup find it. -/
theorem lookup_append_self (c : Cache) (k : String) (t : ℤ)
    (hn : List.lookup k c = none) : List.lookup k (c ++ [(k, t)]) = some t := by
  induction c with
  | nil => simp [List.lookup]
  | cons p rest ih =>
    rcases p with ⟨k1, t1⟩
    cases hbe : (k == k1)
    · have hn' : List.lookup k rest = none := by
        simpa [List.lookup, hbe] using hn
      simpa [List.lookup, hbe] using ih hn'
    · simp [List.lookup, hbe] at hn

/-- Recording a key that was not in the cache binds it to the recording
time. -/
theorem cacheSet_lookup_of_not_has (c : Cache) (k : String) (t : ℤ)
    (h : cacheHas c k = false) : List.lookup k (cacheSet c k t) = some t := by
  have hn : List.lookup k c = none := by
    unfold cacheHas at h
    cases hl : List.lookup k c
    · rfl
    · rw [hl] at h
      simp at h
  unfold cacheSet
  rw [h]
  simp only [Bool.false_eq_true, if_false]
  exact lookup_append_self c k t hn

/-- An entry recorded no earlier than the prune cutoff survives the
prune with its timestamp. -/
theorem prune_lookup_keep (c : Cache) (k : String) (ts ttl now : ℤ)
    (hl : List.lookup k c = some ts) (hkeep : now - ttl * 1000 ≤ ts) :
    List.lookup k (pruneSeenWebhookEvents c ttl now) = some ts := by
  show List.lookup k (c.filter (fun p => decide (now - ttl * 1000 ≤ p.2))) = some ts
  induction c with
  | nil => simp [List.lookup] at hl
  | cons p rest ih =>
    rcases p with ⟨k1, t1⟩
    cases hbe : (k == k1)
    · have hl' : List.lookup k rest = some ts := by
        simpa [List.lookup, hbe] using hl
      rw [List.filter_cons]
      by_cases hk1 : now - ttl * 1000 ≤ t1
      · simpa [hk1, List.lookup, hbe] using ih hl'
      · simpa [hk1] using ih hl'
    · have hkeq : k = k1 := eq_of_beq hbe
      subst hkeq
      have ht : t1 = ts := by
        simpa [List.lookup, hbe] using hl
      subst ht
      rw [List.filter_cons]
      simp [hkeep, List.lookup]

/-- The key just recorded by an accepted run is in the handler's
resulting cache. -/
theorem cacheHas_cacheSet_self (c : Cache) (k : String) (t : ℤ)
    (h : cacheHas c k = false) : cacheHas (cacheSet c k t) k = true := by
  unfold cacheHas
  rw [cacheSet_lookup_of_not_has c k t h]
  rfl

/-- Characterization of an accepted run: if the handler attempted a
forward, the request passed the secret check and the event-type filter,
its key was not yet in the (pruned) cache, the new cache is the pruned
cache extended with the key at the arrival time, and a failed forward
makes the response `forwardFailed`. -/
theorem handleRequest_accepted_run (cfg : HandlerConfig) (hash : String → String)
    (req : HttpRequest) (payload : JsObject) (cache : Cache) (now : ℤ)
    (forwardOk : Bool) (hm : sUpper req.method = "POST")
    (hb : readJsonBody req.bodyRaw req.bodyParsed = Except.ok payload)
    (hf : (handleRequest cfg hash req cache now forwardOk).forwarded = true) :
    secretCheckFails cfg req payload = false ∧
    isReplyEvent cfg.replyEventTypes (extractReplyWebhookContext payload) payload
        = true ∧
    cacheHas (pruneSeenWebhookEvents cache cfg.dedupeTtlSeconds now)
        (makeWebhookEventKey hash (extractReplyWebhookContext payload)) = false ∧
    (handleRequest cfg hash req cache now forwardOk).cache =
      cacheSet (pruneSeenWebhookEvents cache cfg.dedupeTtlSeconds now)
        (makeWebhookEventKey hash (extractReplyWebhookContext payload)) now ∧
    (forwardOk = false →
      (handleRequest cfg hash req cache now forwardOk).response = .forwardFailed) := by
  rw [handleRequest_post_eq cfg hash req payload cache now forwardOk hm hb] at hf ⊢
  unfold handlePost at hf ⊢
  cases hsec : secretCheckFails cfg req payload
  · cases hrep :
        isReplyEvent cfg.replyEventTypes (extractReplyWebhookContext payload) payload
    · simp_all
    · simp only [hsec, hrep, Bool.false_eq_true, if_false, if_true] at hf ⊢
      unfold handleAccepted at hf ⊢
      cases hseen : cacheHas (pruneSeenWebhookEvents cache cfg.dedupeTtlSeconds now)
          (makeWebhookEventKey hash (extractReplyWebhookContext payload))
      · cases forwardOk <;> simp_all
      · simp_all
  · simp_all

/-- Classification of a request whose key is already in the pruned cache:
the handler answers with the duplicate marker and attempts no forward. -/
theorem handleRequest_duplicate_run (cfg : HandlerConfig) (hash : String → String)
    (req : HttpRequest) (payload : JsObject) (cache : Cache) (now : ℤ)
    (forwardOk : Bool) (hm : sUpper req.method = "POST")
    (hb : readJsonBody req.bodyRaw req.bodyParsed = Except.ok payload)
    (hsec : secretCheckFails cfg req payload = false)
    (hrep : isReplyEvent cfg.replyEventTypes (extractReplyWebhookContext payload)
        payload = true)
    (hseen : cacheHas (pruneSeenWebhookEvents cache cfg.dedupeTtlSeconds now)
        (makeWebhookEventKey hash (extractReplyWebhookContext payload)) = true) :
    (handleRequest cfg hash req cache now forwardOk).response =
      .duplicate (makeWebhookEventKey hash (extractReplyWebhookContext payload)) ∧
    (handleRequest cfg hash req cache now forwardOk).response.status = 200 ∧
    (handleRequest cfg hash req cache now forwardOk).forwarded = false := by
  rw [handleRequest_post_eq cfg hash req payload cache now forwardOk hm hb]
  unfold handlePost handleAccepted
  simp [hsec, hrep, hseen, WebhookResponse.status]

/-- Resubmitting the request of an accepted run within the TTL window is
classified as a duplicate and attempts no forward. -/
theorem resubmit_duplicate_of_accepted (cfg : HandlerConfig) (hash : String → String)
    (req : HttpRequest) (payload : JsObject) (cache : Cache) (now1 now2 : ℤ)
    (fwd1 fwd2 : Bool) (hm : sUpper req.method = "POST")
    (hb : readJsonBody req.bodyRaw req.bodyParsed = Except.ok payload)
    (hf : (handleRequest cfg hash req cache now1 fwd1).forwarded = true)
    (ht : now2 - cfg.dedupeTtlSeconds * 1000 ≤ now1) :
    (handleRequest cfg hash req (handleRequest cfg hash req cache now1 fwd1).cache
        now2 fwd2).response =
      .duplicate (makeWebhookEventKey hash (extractReplyWebhookContext payload)) ∧
    (handleRequest cfg hash req (handleRequest cfg hash req cache now1 fwd1).cache
        now2 fwd2).forwarded = false := by
  obtain ⟨hsec, hrep, hseen, hcache, -⟩ :=
    handleRequest_accepted_run cfg hash req payload cache now1 fwd1 hm hb hf
  have hl1 : List.lookup (makeWebhookEventKey hash (extractReplyWebhookContext payload))
      (handleRequest cfg hash req cache now1 fwd1).cache = some now1 := by
    rw [hcache]
    exact cacheSet_lookup_of_not_has _ _ _ hseen
  have hl2 := prune_lookup_keep _ _ now1 cfg.dedupeTtlSeconds now2 hl1 ht
  have hseen2 : cacheHas
      (pruneSeenWebhookEvents (handleRequest cfg hash req cache now1 fwd1).cache
        cfg.dedupeTtlSeconds now2)
      (makeWebhookEventKey hash (extractReplyWebhookContext payload)) = true := by
    unfold cacheHas
    rw [hl2]
    rfl
  have hd := handleRequest_duplicate_run cfg hash req payload
    (handleRequest cfg hash req cache now1 fwd1).cache now2 fwd2 hm hb hsec hrep hseen2
  exact ⟨hd.1, hd.2.2⟩

/-- C7: resubmitting an accepted reply within the TTL window yields one
forward attempt and a second response marked duplicate; and any second
request that passes validation and reply filtering and carries the same
non-empty stats id as an accepted first request is classified as a
duplicate regardless of every other field, and is not forwarded. -/
theorem c7_duplicate_suppression :
    (∀ (cfg : HandlerConfig) (hash : String → String) (req : HttpRequest)
        (payload : JsObject) (cache : Cache) (now1 now2 : ℤ) (fwd1 fwd2 : Bool),
      sUpper req.method = "POST" →
      readJsonBody req.bodyRaw req.bodyParsed = Except.ok payload →
      (handleRequest cfg hash req cache now1 fwd1).forwarded = true →
      now2 - cfg.dedupeTtlSeconds * 1000 ≤ now1 →
      (handleRequest cfg hash req (handleRequest cfg hash req cache now1 fwd1).cache
          now2 fwd2).response =
        .duplicate (makeWebhookEventKey hash (extractReplyWebhookContext payload)) ∧
      (handleRequest cfg hash req (handleRequest cfg hash req cache now1 fwd1).cache
          now2 fwd2).forwarded = false) ∧
    (∀ (cfg : HandlerConfig) (hash : String → String) (req1 req2 : HttpRequest)
        (p1 p2 : JsObject) (cache : Cache) (now1 now2 : ℤ) (fwd1 fwd2 : Bool),
      sUpper req1.method = "POST" →
      readJsonBody req1.bodyRaw req1.bodyParsed = Except.ok p1 →
      (handleRequest cfg hash req1 cache now1 fwd1).forwarded = true →
      sUpper req2.method = "POST" →
      readJsonBody req2.bodyRaw req2.bodyParsed = Except.ok p2 →
      secretCheckFails cfg req2 p2 = false →
      isReplyEvent cfg.replyEventTypes (extractReplyWebhookContext p2) p2 = true →
      (extractReplyWebhookContext p2).statsId =
        (extractReplyWebhookContext p1).statsId →
      (extractReplyWebhookContext p1).statsId ≠ "" →
      now2 - cfg.dedupeTtlSeconds * 1000 ≤ now1 →
      (handleRequest cfg hash req2 (handleRequest cfg hash req1 cache now1 fwd1).cache
          now2 fwd2).response =
        .duplicate (makeWebhookEventKey hash (extractReplyWebhookContext p2)) ∧
      (handleRequest cfg hash req2 (handleRequest cfg hash req1 cache now1 fwd1).cache
          now2 fwd2).forwarded = false) := by
  constructor
  · intro cfg hash req payload cache now1 now2 fwd1 fwd2 hm hb hf ht
    exact resubmit_duplicate_of_accepted cfg hash req payload cache now1 now2 fwd1 fwd2
      hm hb hf ht
  · intro cfg hash req1 req2 p1 p2 cache now1 now2 fwd1 fwd2 hm1 hb1 hf1 hm2 hb2 hsec2
      hrep2 hstats hne ht
    obtain ⟨hsec1, hrep1, hseen1, hcache1, -⟩ :=
      handleRequest_accepted_run cfg hash req1 p1 cache now1 fwd1 hm1 hb1 hf1
    have hne2 : (extractReplyWebhookContext p2).statsId ≠ "" := by
      rw [hstats]
      exact hne
    have hkey : makeWebhookEventKey hash (extractReplyWebhookContext p2) =
        makeWebhookEventKey hash (extractReplyWebhookContext p1) := by
      unfold makeWebhookEventKey
      rw [dedupeBase_statsId _ hne2, dedupeBase_statsId _ hne, hstats]
    have hl1 : List.lookup (makeWebhookEventKey hash (extractReplyWebhookContext p2))
        (handleRequest cfg hash req1 cache now1 fwd1).cache = some now1 := by
      rw [hkey, hcache1]
      exact cacheSet_lookup_of_not_has _ _ _ hseen1
    have hl2 := prune_lookup_keep _ _ now1 cfg.dedupeTtlSeconds now2 hl1 ht
    have hseen2 : cacheHas
        (pruneSeenWebhookEvents (handleRequest cfg hash req1 cache now1 fwd1).cache
          cfg.dedupeTtlSeconds now2)
        (makeWebhookEventKey hash (extractReplyWebhookContext p2)) = true := by
      unfold cacheHas
      rw [hl2]
      rfl
    have hd := handleRequest_duplicate_run cfg hash req2 p2
      (handleRequest cfg hash req1 cache now1 fwd1).cache now2 fwd2 hm2 hb2 hsec2 hrep2
      hseen2
    exact ⟨hd.1, hd.2.2⟩

/-- C9: the fingerprint is recorded before the forward attempt, so a
failed forward leaves it recorded: the first run answers 500 with the key
in the cache, and a resubmission within the TTL window is classified as a
duplicate and never forwarded. -/
theorem c9_record_survives_forward_failure (cfg : HandlerConfig)
    (hash : String → String) (req : HttpRequest) (payload : JsObject) (cache : Cache)
    (now1 now2 : ℤ) (fwd2 : Bool) (hm : sUpper req.method = "POST")
    (hb : readJsonBody req.bodyRaw req.bodyParsed = Except.ok payload)
    (hf : (handleRequest cfg hash req cache now1 false).forwarded = true)
    (ht : now2 - cfg.dedupeTtlSeconds * 1000 ≤ now1) :
    (handleRequest cfg hash req cache now1 false).response = .forwardFailed ∧
    (handleRequest cfg hash req cache now1 false).response.status = 500 ∧
    cacheHas (handleRequest cfg hash req cache now1 false).cache
        (makeWebhookEventKey hash (extractReplyWebhookContext payload)) = true ∧
    (handleRequest cfg hash req (handleRequest cfg hash req cache now1 false).cache
        now2 fwd2).response =
      .duplicate (makeWebhookEventKey hash (extractReplyWebhookContext payload)) ∧
    (handleRequest cfg hash req (handleRequest cfg hash req cache now1 false).cache
        now2 fwd2).forwarded = false := by
  obtain ⟨hsec, hrep, hseen, hcache, hfail⟩ :=
    handleRequest_accepted_run cfg hash req payload cache now1 false hm hb hf
  have hresp := hfail rfl
  refine ⟨hresp, ?_, ?_, ?_⟩
  · rw [hresp]
    rfl
  · rw [hcache]
    exact cacheHas_cacheSet_self _ _ _ hseen
  · exact resubmit_duplicate_of_accepted cfg hash req payload cache now1 now2 false fwd2
      hm hb hf ht

/-- C7 witness: an accepted reply, then (a) the identical payload and (b)
a payload with the same stats id but different campaign id and lead
email, both resubmitted within the TTL, both classified duplicate and not
forwarded, through `c7_duplicate_suppression`. -/
theorem c7_duplicate_suppression_witness :
    ((handleRequest openCfg idHash (postReq replyRaw replyPayload)
          ((handleRequest openCfg idHash (postReq replyRaw replyPayload) [] 0
              true).cache) 500 true).response =
        .duplicate (makeWebhookEventKey idHash (extractReplyWebhookContext replyPayload)) ∧
      (handleRequest openCfg idHash (postReq replyRaw replyPayload)
          ((handleRequest openCfg idHash (postReq replyRaw replyPayload) [] 0
              true).cache) 500 true).forwarded = false) ∧
    ((handleRequest openCfg idHash (postReq replyVariantRaw replyPayloadVariant)
          ((handleRequest openCfg idHash (postReq replyRaw replyPayload) [] 0
              true).cache) 1000 true).response =
        .duplicate
          (makeWebhookEventKey idHash (extractReplyWebhookContext replyPayloadVariant)) ∧
      (handleRequest openCfg idHash (postReq replyVariantRaw replyPayloadVariant)
          ((handleRequest openCfg idHash (postReq replyRaw replyPayload) [] 0
              true).cache) 1000 true).forwarded = false) :=
  ⟨c7_duplicate_suppression.1 openCfg idHash (postReq replyRaw replyPayload) replyPayload
      [] 0 500 true true rfl rfl (by decide) (by decide),
    c7_duplicate_suppression.2 openCfg idHash (postReq replyRaw replyPayload)
      (postReq replyVariantRaw replyPayloadVariant) replyPayload replyPayloadVariant []
      0 1000 true true rfl rfl (by decide) rfl rfl (by decide) (by decide) (by decide)
      (by decide) (by decide)⟩

/-- C7 counterexample: a second request with the stats id of an accepted
first request but an unsupported event type is classified as ignored, not
as a duplicate — same stats id does not imply the duplicate
classification when other fields differ. -/
theorem c7_counterexample :
    (extractReplyWebhookContext statusPayload).statsId =
      (extractReplyWebhookContext replyPayload).statsId ∧
    (extractReplyWebhookContext statusPayload).statsId ≠ "" ∧
    (handleRequest openCfg idHash (postReq statusRaw statusPayload)
        ((handleRequest openCfg idHash (postReq replyRaw replyPayload) [] 0 true).cache)
        1000 true).response = .ignored (some "CAMPAIGN_STATUS") ∧
    (handleRequest openCfg idHash (postReq statusRaw statusPayload)
        ((handleRequest openCfg idHash (postReq replyRaw replyPayload) [] 0 true).cache)
        1000 true).response.status = 202 := by
  decide

/-- C9 witness: a concrete accepted reply whose forward fails, answered
500 with the key recorded, and the resubmission within the TTL classified
duplicate, through `c9_record_survives_forward_failure`. -/
theorem c9_record_survives_forward_failure_witness :
    (handleRequest openCfg idHash (postReq replyRaw replyPayload) [] 0 false).response
        = .forwardFailed ∧
    (handleRequest openCfg idHash (postReq replyRaw replyPayload) [] 0
        false).response.status = 500 ∧
    cacheHas (handleRequest openCfg idHash (postReq replyRaw replyPayload) [] 0
        false).cache
        (makeWebhookEventKey idHash (extractReplyWebhookContext replyPayload)) = true ∧
    (handleRequest openCfg idHash (postReq replyRaw replyPayload)
        ((handleRequest openCfg idHash (postReq replyRaw replyPayload) [] 0
            false).cache) 1000 true).response =
      .duplicate (makeWebhookEventKey idHash (extractReplyWebhookContext replyPayload)) ∧
    (handleRequest openCfg idHash (postReq replyRaw replyPayload)
        ((handleRequest openCfg idHash (postReq replyRaw replyPayload) [] 0
            false).cache) 1000 true).forwarded = false :=
  c9_record_survives_forward_failure openCfg idHash (postReq replyRaw replyPayload)
    replyPayload [] 0 1000 true rfl rfl (by decide) (by decide)

/-- C8: the Context Extractor is total by construction (it is a function
defined for every payload object; no case can throw), its numeric fields
go through `coerceNumber` on the candidate keys, `coerceNumber` accepts
finite numbers and numeric-looking strings (coercing decimal, fractional
and exponent forms exactly) while rejecting `NaN`, the infinities,
non-numeric strings and every non-number non-string value, and absence of
every field is representable in the output record (`none` for the
numeric and correspondence fields, the empty string for string fields,
realized on the empty payload). -/
theorem c8_extractor_totality :
    (∀ p : JsObject, (extractReplyWebhookContext p).campaignId =
        coerceNumber (jsGet p "campaign_id")) ∧
    (∀ p : JsObject, (extractReplyWebhookContext p).leadId =
        (coerceNumber (jsGet p "sl_email_lead_id")).orElse
          (fun _ => coerceNumber (jsGet p "lead_id"))) ∧
    (∀ q : ℚ, coerceNumber (.num (.finite q)) = some q) ∧
    coerceNumber (.num .nan) = none ∧
    coerceNumber (.num .posInf) = none ∧
    coerceNumber (.num .negInf) = none ∧
    coerceNumber (.str "  123  ") = some 123 ∧
    coerceNumber (.str "-7") = some (-7) ∧
    coerceNumber (.str "2.5") = some (5 / 2) ∧
    coerceNumber (.str "2e3") = some 2000 ∧
    coerceNumber (.str "Infinity") = none ∧
    coerceNumber (.str "-Infinity") = none ∧
    coerceNumber (.str "NaN") = none ∧
    coerceNumber (.str "twelve") = none ∧
    coerceNumber (.str "") = none ∧
    coerceNumber (.str "   ") = none ∧
    coerceNumber .null = none ∧
    coerceNumber .undef = none ∧
    coerceNumber (.bool true) = none ∧
    (extractReplyWebhookContext []).campaignId = none ∧
    (extractReplyWebhookContext []).leadId = none ∧
    (extractReplyWebhookContext []).leadCorrespondence = none := by
  have h25 : coerceNumber (.str "2.5") = some (5 / 2) := by
    have h : coerceNumber (.str "2.5") =
        some ((2 : ℚ) + (5 : ℚ) / (10 : ℚ) ^ (1 : ℕ)) := rfl
    rw [h]
    norm_num
  have h2e3 : coerceNumber (.str "2e3") = some 2000 := by
    have h : coerceNumber (.str "2e3") =
        some ((2 : ℚ) * (10 : ℚ) ^ ((3 : ℕ) : ℤ)) := rfl
    rw [h]
    norm_num
  exact ⟨fun p => rfl, fun p => rfl, fun q => rfl, rfl, rfl, rfl, by decide, by decide,
    h25, h2e3, by decide, by decide, by decide, by decide, rfl, by decide, rfl, rfl,
    rfl, rfl, rfl, rfl⟩

/-- A `handlePost` outcome never carries the invalid-JSON status 400. -/
theorem handlePost_status_ne_400 (cfg : HandlerConfig) (hash : String → String)
    (req : HttpRequest) (payload : JsObject) (cache : Cache) (now : ℤ) (fwd : Bool) :
    (handlePost cfg hash req payload cache now fwd).response.status ≠ 400 := by
  unfold handlePost handleAccepted
  cases hsec : secretCheckFails cfg req payload
  · cases hrep :
        isReplyEvent cfg.replyEventTypes (extractReplyWebhookContext payload) payload
    · simp [hsec, hrep, WebhookResponse.status]
    · cases hseen : cacheHas
          (pruneSeenWebhookEvents cache cfg.dedupeTtlSeconds now)
          (makeWebhookEventKey hash (extractReplyWebhookContext payload))
      · cases fwd <;> simp [hsec, hrep, hseen, WebhookResponse.status]
      · simp [hsec, hrep, hseen, WebhookResponse.status]
  · simp [hsec, WebhookResponse.status]

/-- C10: a POST body that is empty, whitespace-only, or valid JSON that
is not an object (array, number, string, boolean or null) is not rejected
with 400: `readJsonBody` turns each of these into the empty object, and
the handler then behaves exactly as it does on an explicit empty-object
body, proceeding through extraction, validation and filtering. -/
theorem c10_body_leniency :
    (∀ (raw : String) (parsed : Option JsValue), (sTrim raw).isEmpty = true →
      readJsonBody raw parsed = .ok []) ∧
    (∀ (raw : String) (l : List JsValue), readJsonBody raw (some (.arr l)) = .ok []) ∧
    (∀ (raw : String) (n : JsNum), readJsonBody raw (some (.num n)) = .ok []) ∧
    (∀ raw s : String, readJsonBody raw (some (.str s)) = .ok []) ∧
    (∀ (raw : String) (b : Bool), readJsonBody raw (some (.bool b)) = .ok []) ∧
    (∀ raw : String, readJsonBody raw (some .null) = .ok []) ∧
    (∀ (cfg : HandlerConfig) (hash : String → String) (req : HttpRequest)
        (cache : Cache) (now : ℤ) (fwd : Bool),
      sUpper req.method = "POST" →
      readJsonBody req.bodyRaw req.bodyParsed = Except.ok [] →
      (handleRequest cfg hash req cache now fwd).response.status ≠ 400 ∧
      handleRequest cfg hash req cache now fwd =
        handleRequest cfg hash ⟨req.method, req.headers, req.query, "", none⟩ cache now
          fwd) := by
  refine ⟨fun raw parsed h => ?_, fun raw l => ?_, fun raw n => ?_, fun raw s => ?_,
    fun raw b => ?_, fun raw => ?_, fun cfg hash req cache now fwd hm hb => ?_⟩
  · unfold readJsonBody
    simp [h]
  · by_cases h : (sTrim raw).isEmpty <;> simp [readJsonBody, h, asRecord]
  · by_cases h : (sTrim raw).isEmpty <;> simp [readJsonBody, h, asRecord]
  · by_cases h : (sTrim raw).isEmpty <;> simp [readJsonBody, h, asRecord]
  · by_cases h : (sTrim raw).isEmpty <;> simp [readJsonBody, h, asRecord]
  · by_cases h : (sTrim raw).isEmpty <;> simp [readJsonBody, h, asRecord]
  · constructor
    · rw [handleRequest_post_eq cfg hash req [] cache now fwd hm hb]
      exact handlePost_status_ne_400 cfg hash req [] cache now fwd
    · have hreq : extractRequestToken
          (⟨req.method, req.headers, req.query, "", none⟩ : HttpRequest) =
          extractRequestToken req := by
        cases req
        rfl
      rw [handleRequest_post_eq cfg hash req [] cache now fwd hm hb,
        handleRequest_post_eq cfg hash ⟨req.method, req.headers, req.query, "", none⟩
          [] cache now fwd hm rfl]
      unfold handlePost secretCheckFails providedSecretOf
      rw [hreq]

/-- C10 witness: a whitespace-only POST body — on which `JSON.parse`
would throw — is read as the empty object and handled exactly like an
empty-object body, with a non-400 response, through `c10_body_leniency`. -/
theorem c10_body_leniency_witness :
    readJsonBody "   " none = .ok [] ∧
    readJsonBody "[1]" (some (.arr [.num (.finite 1)])) = .ok [] ∧
    ((handleRequest openCfg idHash (⟨"POST", [], [], "   ", none⟩ : HttpRequest) [] 0
          true).response.status ≠ 400 ∧
      handleRequest openCfg idHash (⟨"POST", [], [], "   ", none⟩ : HttpRequest) [] 0
          true =
        handleRequest openCfg idHash (⟨"POST", [], [], "", none⟩ : HttpRequest) [] 0
          true) :=
  ⟨c10_body_leniency.1 "   " none (by decide),
    c10_body_leniency.2.1 "[1]" [.num (.finite 1)],
    c10_body_leniency.2.2.2.2.2.2 openCfg idHash
      (⟨"POST", [], [], "   ", none⟩ : HttpRequest) [] 0 true rfl rfl⟩

end Smartlead
